import Mathlib

/-!
Shallow embedding of the cp18-app client screens.

Source files modelled:
* src/unnamed/part_000 — the MapRoute component (map-navigation view)
* src/screens/RidePreparation/ExteriorCheckScreen.js — the pre-trip checklist
* src/App.js — the app bootstrap shell

Numeric values carried by coordinates are modelled over the rationals.  The
geodesic distance computation is performed by the third-party geolib helper
(geolib.getDistance), which returns a whole number of meters; it is modelled
as an abstract function parameter of type Coord to Coord to Nat, since the
repository treats it as a black box and every claim only compares its result
against the fixed thresholds.
-/

namespace CpApp

/-- A latitude/longitude pair, as produced by the directions response mapping
(part_000 lines 182-187) and by location updates. -/
structure Coord where
  latitude : ℚ
  longitude : ℚ
deriving DecidableEq, Repr

/-- A maneuver step of the fetched route: a coordinate plus the bearing after
the maneuver (part_000 lines 188-194). -/
structure Step where
  latitude : ℚ
  longitude : ℚ
  bearing : ℚ
deriving DecidableEq, Repr

/-- The coordinate part of a step, as read by geolib.getDistance when the
whole step object is passed to it (part_000 line 225). -/
def Step.pos (st : Step) : Coord :=
  { latitude := st.latitude, longitude := st.longitude }

/-- The focusedLocation region (part_000 lines 36-41). -/
structure Region where
  latitude : ℚ
  longitude : ℚ
  latitudeDelta : ℚ
  longitudeDelta : ℚ
deriving DecidableEq, Repr

/-- The component state of the MapRoute view (part_000 lines 32-45). -/
structure MapRouteState where
  coordinates : List Coord
  steps : List Step
  currentCoordinateIndex : ℕ
  focusedLocation : Region
  destinationReached : Bool
  isMapReady : Bool
  isNavigation : Bool
deriving DecidableEq, Repr

/-- animateNavigation (part_000 lines 222-234): walk the steps list in order;
the first step whose distance to the received coordinate is below 10 meters
is removed (steps.splice(i, 1)) and the walk stops (break).  The
map.animateToBearing call is a pure UI effect and carries no state. -/
def removeReachedStep (dist : Coord → Coord → ℕ) (coords : Coord) :
    List Step → List Step
  | [] => []
  | st :: rest =>
      if dist coords st.pos < 10 then rest
      else st :: removeReachedStep dist coords rest

/-- animateNavigation as a state transformer: only the steps field changes
(part_000 lines 229-230, the setState after splice). -/
def animateNavigation (dist : Coord → Coord → ℕ) (s : MapRouteState)
    (coords : Coord) : MapRouteState :=
  { s with steps := removeReachedStep dist coords s.steps }

/-- checkUserLocation (part_000 lines 202-220): when isNavigation holds the
steps list is updated through animateNavigation (the animateToCoordinates
call is a pure map animation); then the distance from the received coordinate
to coordinates[coordinates.length - 1] is computed with geolib.getDistance
and, when it is at most 20, destinationReached is set to true and the
onDestinationReached prop callback fires (an external effect, not state).
With an empty coordinates list the JavaScript destination lookup yields
undefined and geolib throws before any setState, so the state is unchanged;
this is modelled by the none branch of getLast?. -/
def checkUserLocation (dist : Coord → Coord → ℕ) (s : MapRouteState)
    (coords : Coord) : MapRouteState :=
  let steps1 :=
    if s.isNavigation then (animateNavigation dist s coords).steps else s.steps
  let reached1 :=
    match s.coordinates.getLast? with
    | none => s.destinationReached
    | some destinationCoords =>
        if dist coords destinationCoords ≤ 20 then true
        else s.destinationReached
  { s with steps := steps1, destinationReached := reached1 }

/-- focusOnCoords (part_000 lines 152-164): replaces the latitude/longitude
of the focused region, keeping the deltas; animateToRegion is a UI effect. -/
def focusOnCoords (s : MapRouteState) (coords : Coord) : MapRouteState :=
  { s with focusedLocation :=
      { s.focusedLocation with
          latitude := coords.latitude, longitude := coords.longitude } }

/-- The setState performed by getDirections (part_000 lines 195-198), taking
the already-mapped coordinate and step lists of the directions response. -/
def setDirections (s : MapRouteState) (coordinates : List Coord)
    (steps : List Step) : MapRouteState :=
  { s with coordinates := coordinates, steps := steps }

/-- onMapReady (part_000 lines 360-362). -/
def onMapReady (s : MapRouteState) : MapRouteState :=
  { s with isMapReady := true }

/-- The setState of the simulated-playback loop (part_000 lines 145-147). -/
def advanceIndex (s : MapRouteState) : MapRouteState :=
  { s with currentCoordinateIndex := s.currentCoordinateIndex + 1 }

/-- simulateNavigation (part_000 lines 132-150), entered at iteration n.
Arguments: pause is the pauseNavigation prop for this run; cancel m is the
value the cancelNavigation unmount flag has when iteration m resumes from
its asyncSleep (the flag starts false and componentWillUnmount, part_000
line 115, sets it to true, after which it stays true).  Each iteration:
when not paused and the cursor is a valid index, feed the current coordinate
to checkUserLocation, sleep, return if the unmount flag is set, otherwise
increment the cursor and reschedule.  The second component of the result
counts how many further iterations the run scheduled. -/
def simulateNavigationFrom (dist : Coord → Coord → ℕ) (pause : Bool)
    (cancel : ℕ → Bool) (n : ℕ) (s : MapRouteState) : MapRouteState × ℕ :=
  if h : pause = false ∧ s.currentCoordinateIndex < s.coordinates.length then
    let s1 := checkUserLocation dist s (s.coordinates.get ⟨s.currentCoordinateIndex, h.2⟩)
    if cancel n then (s1, 0)
    else
      let r := simulateNavigationFrom dist pause cancel (n + 1) (advanceIndex s1)
      (r.1, r.2 + 1)
  else (s, 0)
termination_by s.coordinates.length - s.currentCoordinateIndex
decreasing_by
  simp [checkUserLocation, advanceIndex]
  omega

/-- startNavigation (part_000 lines 250-267) as a state transformer: set
isNavigation, run animateNavigation on the current location, and when the
fakeNavigation dev setting is on start the simulated playback.  The
fitToCoordinates / animateToViewingAngle calls and the log are effects. -/
def startNavigation (dist : Coord → Coord → ℕ) (s : MapRouteState)
    (currentLocation : Coord) (fakeNavigation pause : Bool)
    (cancel : ℕ → Bool) (n : ℕ) : MapRouteState :=
  let s1 := { s with isNavigation := true }
  let s2 := animateNavigation dist s1 currentLocation
  if fakeNavigation then (simulateNavigationFrom dist pause cancel n s2).1
  else s2

/-- renderLocationMarker (part_000 lines 338-358): the coordinate the
simulated-location marker is drawn at, or none when no marker is rendered.
The guard treats an out-of-range cursor (coordinates[currentCoordinateIndex]
=== undefined) as no marker. -/
def renderLocationMarker (fakeNavigation : Bool) (s : MapRouteState) :
    Option Coord :=
  if !fakeNavigation then none
  else if !s.isMapReady || !s.isNavigation
      || (s.coordinates[s.currentCoordinateIndex]?).isNone then none
  else s.coordinates[s.currentCoordinateIndex]?

/-- The state-updating operations of the MapRoute view, each carrying the
external inputs it consumes (the abstract geolib distance function, received
coordinates, the mapped directions response, prop and dev-setting values). -/
inductive MapRouteOp where
  | checkLocation (dist : Coord → Coord → ℕ) (coords : Coord)
  | animateNav (dist : Coord → Coord → ℕ) (coords : Coord)
  | directions (coordinates : List Coord) (steps : List Step)
  | focus (coords : Coord)
  | mapReady
  | startNav (dist : Coord → Coord → ℕ) (currentLocation : Coord)
      (fakeNavigation pause : Bool) (cancel : ℕ → Bool) (n : ℕ)
  | advance
  | simulate (dist : Coord → Coord → ℕ) (pause : Bool) (cancel : ℕ → Bool)
      (n : ℕ)

/-- Apply one MapRoute operation to the component state. -/
def applyOp : MapRouteOp → MapRouteState → MapRouteState
  | .checkLocation dist coords, s => checkUserLocation dist s coords
  | .animateNav dist coords, s => animateNavigation dist s coords
  | .directions coordinates steps, s => setDirections s coordinates steps
  | .focus coords, s => focusOnCoords s coords
  | .mapReady, s => onMapReady s
  | .startNav dist currentLocation fakeNavigation pause cancel n, s =>
      startNavigation dist s currentLocation fakeNavigation pause cancel n
  | .advance, s => advanceIndex s
  | .simulate dist pause cancel n, s =>
      (simulateNavigationFrom dist pause cancel n s).1

/-- Truthiness of a JavaScript Promise object: an object is always truthy. -/
def promiseIsTruthy : Bool := true

/-- The permission condition of componentDidMount, part_000 line 66:
the source reads await not lib.isPermissionGranted(Permissions.LOCATION),
so the negation applies to the Promise object itself, which is truthy,
before the await; the awaited value is therefore the constant false and
the granted result of the permission check is never consulted. -/
def permissionDeniedCheck (_permissionGranted : Bool) : Bool :=
  !promiseIsTruthy

/-- The branch outcomes of componentDidMount (part_000 lines 50-102). -/
inductive MountOutcome where
  | openLocationSettings
  | permissionAlert
  | proceed
deriving DecidableEq, Repr

/-- componentDidMount control flow (part_000 lines 58-72): with location
services disabled it opens the Android location settings and returns; when
the line-66 permission condition holds it shows the permission alert and
returns; otherwise it proceeds to acquire the current location (and, with
showDirections, to fetch the route and start the position watch). -/
def componentDidMountOutcome (locationServicesEnabled permissionGranted : Bool) :
    MountOutcome :=
  if !locationServicesEnabled then .openLocationSettings
  else if permissionDeniedCheck permissionGranted then .permissionAlert
  else .proceed

/-- componentWillUnmount (part_000 lines 114-119) sets the cancelNavigation
flag to true (and removes the position watch, an external effect). -/
def componentWillUnmountFlag (_cancelNavigation : Bool) : Bool := true

/-! ExteriorCheckScreen (src/screens/RidePreparation/ExteriorCheckScreen.js) -/

/-- The component state of the exterior-check screen (lines 36-42). -/
structure ExteriorCheckState where
  rearChecked : Bool
  driverChecked : Bool
  frontChecked : Bool
  codriverChecked : Bool
  issueModalVisible : Bool
deriving DecidableEq, Repr

/-- The checklist item ids that render passes to toggleCheckbox
(lines 131, 142, 150, 158). -/
inductive CheckboxId where
  | rearChecked
  | driverChecked
  | frontChecked
  | codriverChecked
deriving DecidableEq, Repr

/-- Read the state field named by a checklist id. -/
def readCheckbox : CheckboxId → ExteriorCheckState → Bool
  | .rearChecked, s => s.rearChecked
  | .driverChecked, s => s.driverChecked
  | .frontChecked, s => s.frontChecked
  | .codriverChecked, s => s.codriverChecked

/-- toggleCheckbox (lines 45-50): setState of the single computed key id to
the negation of its current value. -/
def toggleCheckbox (id : CheckboxId) (s : ExteriorCheckState) :
    ExteriorCheckState :=
  match id with
  | .rearChecked => { s with rearChecked := !s.rearChecked }
  | .driverChecked => { s with driverChecked := !s.driverChecked }
  | .frontChecked => { s with frontChecked := !s.frontChecked }
  | .codriverChecked => { s with codriverChecked := !s.codriverChecked }

/-- itemsChecked (lines 70-79). -/
def itemsChecked (s : ExteriorCheckState) : Bool :=
  s.rearChecked && s.driverChecked && s.frontChecked && s.codriverChecked

/-- The disabled flag passed to the Open car Button (line 167). -/
def openCarButtonDisabled (s : ExteriorCheckState) : Bool :=
  !(itemsChecked s)

/-- The navigation targets reachable from the exterior-check screen. -/
inductive ECNav where
  | interiorCheck
  | map
  | contact
deriving DecidableEq, Repr

/-- onPressOpenCar (lines 52-68): returns early when itemsChecked fails;
otherwise shows the confirmation alert whose OK button navigates to the
InteriorCheck screen.  The result is the navigation the press can lead to,
none when the press returns without navigating. -/
def onPressOpenCar (s : ExteriorCheckState) : Option ECNav :=
  if !(itemsChecked s) then none
  else some ECNav.interiorCheck

/-! App shell (src/App.js) -/

/-- The navigator routes used as initialRoute values. -/
inductive Route where
  | auth
  | main
deriving DecidableEq, Repr

/-- The observable state of the App component (lines 13-14). -/
structure AppState where
  isLoadingComplete : Bool
  initialRoute : Route
deriving DecidableEq, Repr

/-- The externally visible actions an App handler can perform. -/
inductive AppAction where
  | consoleWarn (error : String)
  | alert (title message : String)
deriving DecidableEq, Repr

/-- The handleLoadingError handler (App.js lines 56-60): console.warn on the
error and nothing else.  Result: the unchanged state and the emitted
actions. -/
def handleLoadingError (error : String) (s : AppState) :
    AppState × List AppAction :=
  (s, [AppAction.consoleWarn error])

/-- The handleFinishLoading handler (App.js lines 62-65): marks loading
complete and picks the initial route from the user store authentication
state. -/
def handleFinishLoading (authenticated : Bool) (s : AppState) : AppState :=
  { s with
      isLoadingComplete := true,
      initialRoute := if authenticated then Route.main else Route.auth }

/-! Concrete sample inputs used to exercise the definitions. -/

/-- A sample coordinate. -/
def demoCoord : Coord := { latitude := 0, longitude := 0 }

/-- A sample focused region. -/
def demoRegion : Region :=
  { latitude := 0, longitude := 0, latitudeDelta := 0, longitudeDelta := 0 }

/-- A sample MapRoute state: a one-coordinate route, navigation running. -/
def demoState : MapRouteState :=
  { coordinates := [demoCoord]
    steps := []
    currentCoordinateIndex := 0
    focusedLocation := demoRegion
    destinationReached := false
    isMapReady := true
    isNavigation := true }

/-- A sample distance function keeping everything far away. -/
def demoDistFar : Coord → Coord → ℕ := fun _ _ => 1000

/-- A sample distance function keeping everything within 20 meters. -/
def demoDistNear : Coord → Coord → ℕ := fun _ _ => 5

/-- A sample step away from the sample coordinate. -/
def demoStepA : Step := { latitude := 0, longitude := 0, bearing := 0 }

/-- A sample step close to the user position under demoDistSteps. -/
def demoStepB : Step := { latitude := 1, longitude := 0, bearing := 90 }

/-- A sample distance function: steps at latitude 0 are 50 meters away,
every other target is 5 meters away. -/
def demoDistSteps : Coord → Coord → ℕ :=
  fun _ b => if b.latitude = 0 then 50 else 5

end CpApp

namespace CpApp

/-! Helper lemmas about the MapRoute operations. -/

/-- checkUserLocation never touches the coordinates list. -/
theorem checkUserLocation_coordinates (dist : Coord → Coord → ℕ)
    (s : MapRouteState) (coords : Coord) :
    (checkUserLocation dist s coords).coordinates = s.coordinates := rfl

/-- checkUserLocation never touches the cursor index. -/
theorem checkUserLocation_index (dist : Coord → Coord → ℕ)
    (s : MapRouteState) (coords : Coord) :
    (checkUserLocation dist s coords).currentCoordinateIndex =
      s.currentCoordinateIndex := rfl

/-- checkUserLocation only ever turns destinationReached on, never off. -/
theorem checkUserLocation_reached_mono (dist : Coord → Coord → ℕ)
    (s : MapRouteState) (coords : Coord) (h : s.destinationReached = true) :
    (checkUserLocation dist s coords).destinationReached = true := by
  simp only [checkUserLocation]
  cases hx : s.coordinates.getLast? <;> simp [hx, h]

/-- Unfolding of a loop iteration that survives the unmount-flag check. -/
theorem simulateNavigationFrom_continue (dist : Coord → Coord → ℕ)
    (pause : Bool) (cancel : ℕ → Bool) (n : ℕ) (s : MapRouteState)
    (hg : pause = false ∧ s.currentCoordinateIndex < s.coordinates.length)
    (hc : cancel n = false) :
    simulateNavigationFrom dist pause cancel n s =
      ((simulateNavigationFrom dist pause cancel (n + 1)
          (advanceIndex (checkUserLocation dist s
            (s.coordinates.get ⟨s.currentCoordinateIndex, hg.2⟩)))).1,
       (simulateNavigationFrom dist pause cancel (n + 1)
          (advanceIndex (checkUserLocation dist s
            (s.coordinates.get ⟨s.currentCoordinateIndex, hg.2⟩)))).2 + 1) := by
  rw [simulateNavigationFrom.eq_def, dif_pos hg]
  simp [hc]

/-- Unfolding of the loop when the guard fails. -/
theorem simulateNavigationFrom_halt (dist : Coord → Coord → ℕ)
    (pause : Bool) (cancel : ℕ → Bool) (n : ℕ) (s : MapRouteState)
    (hg : ¬(pause = false ∧ s.currentCoordinateIndex < s.coordinates.length)) :
    simulateNavigationFrom dist pause cancel n s = (s, 0) := by
  rw [simulateNavigationFrom.eq_def, dif_neg hg]

/-- The playback loop never changes the coordinates list. -/
theorem simulateNavigationFrom_coordinates (dist : Coord → Coord → ℕ)
    (pause : Bool) (cancel : ℕ → Bool) (n : ℕ) (s : MapRouteState) :
    (simulateNavigationFrom dist pause cancel n s).1.coordinates =
      s.coordinates := by
  induction n, s using simulateNavigationFrom.induct dist pause cancel with
  | case1 n s hg hc =>
      rw [simulateNavigationFrom.eq_def, dif_pos hg]
      simp [hc, checkUserLocation_coordinates]
  | case2 n s hg s1 hc ih =>
      rw [simulateNavigationFrom.eq_def, dif_pos hg]
      simp only [Bool.not_eq_true] at hc
      simp [hc]
      exact ih
  | case3 n s hg =>
      rw [simulateNavigationFrom.eq_def, dif_neg hg]

/-- The playback loop only ever turns destinationReached on, never off. -/
theorem simulateNavigationFrom_reached_mono (dist : Coord → Coord → ℕ)
    (pause : Bool) (cancel : ℕ → Bool) (n : ℕ) (s : MapRouteState)
    (h : s.destinationReached = true) :
    (simulateNavigationFrom dist pause cancel n s).1.destinationReached =
      true := by
  induction n, s using simulateNavigationFrom.induct dist pause cancel with
  | case1 n s hg hc =>
      rw [simulateNavigationFrom.eq_def, dif_pos hg]
      simp [hc]
      exact checkUserLocation_reached_mono _ _ _ h
  | case2 n s hg s1 hc ih =>
      rw [simulateNavigationFrom.eq_def, dif_pos hg]
      simp only [Bool.not_eq_true] at hc
      simp [hc]
      exact ih (checkUserLocation_reached_mono _ _ _ h)
  | case3 n s hg =>
      rw [simulateNavigationFrom.eq_def, dif_neg hg]
      exact h

/-- Out of range cursor: the simulated-location marker is not rendered. -/
theorem renderLocationMarker_out_of_range (fake : Bool) (s : MapRouteState)
    (h : s.coordinates.length ≤ s.currentCoordinateIndex) :
    renderLocationMarker fake s = none := by
  have hx : s.coordinates[s.currentCoordinateIndex]? = none :=
    List.getElem?_eq_none h
  simp [renderLocationMarker, hx]

/-! Claim theorems. -/

/-- Claim C1: on every navigation-watch callback with a received coordinate,
destinationReached is set to true exactly when the computed distance from
that coordinate to the final route coordinate is at most 20 meters; when the
distance exceeds 20 meters the call leaves the flag as it was. -/
theorem checkUserLocation_arrival_threshold (dist : Coord → Coord → ℕ)
    (s : MapRouteState) (loc dest : Coord)
    (h : s.coordinates.getLast? = some dest) :
    (dist loc dest ≤ 20 →
      (checkUserLocation dist s loc).destinationReached = true) ∧
    (20 < dist loc dest →
      (checkUserLocation dist s loc).destinationReached =
        s.destinationReached) := by
  constructor
  · intro hd
    simp [checkUserLocation, h, hd]
  · intro hd
    have hd2 : ¬ dist loc dest ≤ 20 := by omega
    simp [checkUserLocation, h, hd2]

/-- Witness for claim C1 at a concrete input. -/
theorem checkUserLocation_arrival_threshold_witness :
    demoState.coordinates.getLast? = some demoCoord ∧
    ((demoDistNear demoCoord demoCoord ≤ 20 →
      (checkUserLocation demoDistNear demoState demoCoord).destinationReached
        = true) ∧
     (20 < demoDistNear demoCoord demoCoord →
      (checkUserLocation demoDistNear demoState demoCoord).destinationReached
        = demoState.destinationReached)) :=
  ⟨rfl, checkUserLocation_arrival_threshold demoDistNear demoState demoCoord
    demoCoord rfl⟩

/-- Claim C2: the Open car button is disabled unless all four checklist
booleans hold, and onPressOpenCar leads to no navigation unless all four
hold. -/
theorem openCar_requires_all_checked (s : ExteriorCheckState) :
    (openCarButtonDisabled s = false ↔
      (s.rearChecked = true ∧ s.driverChecked = true ∧
       s.frontChecked = true ∧ s.codriverChecked = true)) ∧
    (onPressOpenCar s = none ↔
      ¬(s.rearChecked = true ∧ s.driverChecked = true ∧
        s.frontChecked = true ∧ s.codriverChecked = true)) := by
  rcases s with ⟨r, d, f, c, m⟩
  cases r <;> cases d <;> cases f <;> cases c <;>
    simp [openCarButtonDisabled, onPressOpenCar, itemsChecked]

/-- Claim C3 (code bug): mounting with location services enabled and the
permission not granted proceeds to location acquisition and route fetch
instead of stopping at the permission alert, because line 66 negates the
Promise object rather than the awaited Boolean. -/
theorem componentDidMount_permission_alert_skipped :
    componentDidMountOutcome true false = MountOutcome.proceed := rfl

/-- The walk of removeReachedStep keeps every leading step at or beyond the
threshold and removes the first step below it. -/
theorem removeReachedStep_first (dist : Coord → Coord → ℕ) (coords : Coord) :
    ∀ (pre : List Step) (st : Step) (post : List Step),
      (∀ st2 ∈ pre, ¬ dist coords st2.pos < 10) →
      dist coords st.pos < 10 →
      removeReachedStep dist coords (pre ++ st :: post) = pre ++ post := by
  intro pre
  induction pre with
  | nil =>
      intro st post _ hst
      simp [removeReachedStep, hst]
  | cons a rest ih =>
      intro st post hpre hst
      have ha : ¬ dist coords a.pos < 10 := hpre a (by simp)
      simp only [List.cons_append, removeReachedStep, if_neg ha,
        List.append_eq]
      rw [ih st post (fun st2 hmem => hpre st2 (by simp [hmem])) hst]

/-- Claim C4: on a coordinate received during navigation, the first step
waypoint whose geodesic distance to the coordinate is below the 10-meter
maneuver threshold is removed from the steps list; earlier waypoints, being
at or beyond the threshold, are kept. -/
theorem animateNavigation_drops_step (dist : Coord → Coord → ℕ)
    (s : MapRouteState) (coords : Coord) (pre post : List Step) (st : Step)
    (hsplit : s.steps = pre ++ st :: post)
    (hpre : ∀ st2 ∈ pre, ¬ dist coords st2.pos < 10)
    (hst : dist coords st.pos < 10) :
    (animateNavigation dist s coords).steps = pre ++ post := by
  simp only [animateNavigation, hsplit]
  exact removeReachedStep_first dist coords pre st post hpre hst

/-- Witness for claim C4 at a concrete input. -/
theorem animateNavigation_drops_step_witness :
    ({ demoState with steps := [demoStepA, demoStepB] }
        : MapRouteState).steps = [demoStepA] ++ demoStepB :: [] ∧
    (∀ st2 ∈ [demoStepA], ¬ demoDistSteps demoCoord st2.pos < 10) ∧
    demoDistSteps demoCoord demoStepB.pos < 10 ∧
    (animateNavigation demoDistSteps
      { demoState with steps := [demoStepA, demoStepB] } demoCoord).steps =
      [demoStepA] ++ [] :=
  ⟨rfl, by decide, by decide,
    animateNavigation_drops_step demoDistSteps
      { demoState with steps := [demoStepA, demoStepB] } demoCoord
      [demoStepA] [] demoStepB rfl (by decide) (by decide)⟩

/-- Claim C5: toggleCheckbox negates exactly the named checklist boolean and
leaves every other checklist boolean and the issue-modal flag unchanged. -/
theorem toggleCheckbox_flips_exactly_one (s : ExteriorCheckState)
    (id i : CheckboxId) :
    (readCheckbox i (toggleCheckbox id s) =
      if i = id then !(readCheckbox i s) else readCheckbox i s) ∧
    (toggleCheckbox id s).issueModalVisible = s.issueModalVisible := by
  cases id <;> cases i <;> simp [toggleCheckbox, readCheckbox]

/-- Claim C6 counterexample: running the simulated-playback loop on a
one-coordinate route ends in a reachable state whose cursor index equals
the length of the non-empty coordinates list, so the index is not strictly
below the length. -/
theorem simulateNavigation_index_counterexample :
    (simulateNavigationFrom demoDistFar false (fun _ => false) 0
        demoState).1.coordinates ≠ [] ∧
    ¬((simulateNavigationFrom demoDistFar false (fun _ => false) 0
        demoState).1.currentCoordinateIndex <
      (simulateNavigationFrom demoDistFar false (fun _ => false) 0
        demoState).1.coordinates.length) := by
  have hg : false = false ∧
      demoState.currentCoordinateIndex < demoState.coordinates.length :=
    ⟨rfl, by decide⟩
  have hstate : advanceIndex (checkUserLocation demoDistFar demoState
      (demoState.coordinates.get
        ⟨demoState.currentCoordinateIndex, hg.2⟩)) =
      { demoState with currentCoordinateIndex := 1 } := rfl
  have hrun : simulateNavigationFrom demoDistFar false (fun _ => false) 0
      demoState = ({ demoState with currentCoordinateIndex := 1 }, 1) := by
    rw [simulateNavigationFrom_continue demoDistFar false (fun _ => false) 0
        demoState hg rfl, hstate,
      simulateNavigationFrom_halt demoDistFar false (fun _ => false) (0 + 1)
        { demoState with currentCoordinateIndex := 1 } (by decide)]
  rw [hrun]
  exact ⟨by decide, by decide⟩

/-- Claim C6 (amended): the cursor index never exceeds the length of the
coordinates list: every run of the simulated-playback loop started with the
index at most the length ends with the index at most the length; the index
can equal the length (one past the last valid position, reached when the
loop consumes the final coordinate), and in any such state the
simulated-location marker is not rendered. -/
theorem simulateNavigation_index_le (dist : Coord → Coord → ℕ)
    (pause : Bool) (cancel : ℕ → Bool) (n : ℕ) (s : MapRouteState)
    (h : s.currentCoordinateIndex ≤ s.coordinates.length) :
    ((simulateNavigationFrom dist pause cancel n s).1.currentCoordinateIndex ≤
      (simulateNavigationFrom dist pause cancel n s).1.coordinates.length) ∧
    ∀ fake : Bool,
      (simulateNavigationFrom dist pause cancel n s).1.coordinates.length ≤
        (simulateNavigationFrom dist pause cancel n s).1.currentCoordinateIndex →
      renderLocationMarker fake
        (simulateNavigationFrom dist pause cancel n s).1 = none := by
  refine ⟨?_, fun fake hlen => renderLocationMarker_out_of_range fake _ hlen⟩
  induction n, s using simulateNavigationFrom.induct dist pause cancel with
  | case1 n s hg hc =>
      rw [simulateNavigationFrom.eq_def, dif_pos hg]
      simp [hc, checkUserLocation_index, checkUserLocation_coordinates]
      exact h
  | case2 n s hg s1 hc ih =>
      rw [simulateNavigationFrom.eq_def, dif_pos hg]
      simp only [Bool.not_eq_true] at hc
      simp [hc]
      exact ih hg.2
  | case3 n s hg =>
      rw [simulateNavigationFrom.eq_def, dif_neg hg]
      exact h

/-- Witness for the amended claim C6 at a concrete input. -/
theorem simulateNavigation_index_le_witness :
    demoState.currentCoordinateIndex ≤ demoState.coordinates.length ∧
    (((simulateNavigationFrom demoDistFar false (fun _ => false) 0
        demoState).1.currentCoordinateIndex ≤
      (simulateNavigationFrom demoDistFar false (fun _ => false) 0
        demoState).1.coordinates.length) ∧
     ∀ fake : Bool,
      (simulateNavigationFrom demoDistFar false (fun _ => false) 0
          demoState).1.coordinates.length ≤
        (simulateNavigationFrom demoDistFar false (fun _ => false) 0
          demoState).1.currentCoordinateIndex →
      renderLocationMarker fake
        (simulateNavigationFrom demoDistFar false (fun _ => false) 0
          demoState).1 = none) :=
  ⟨by decide, simulateNavigation_index_le demoDistFar false (fun _ => false)
    0 demoState (by decide)⟩

/-- Claim C7: once the unmount flag has been set (and stays set, as
componentWillUnmount only ever sets it to true), the playback loop entered
at that iteration schedules no further iteration and performs no further
cursor update. -/
theorem simulateNavigation_cancel_stops (dist : Coord → Coord → ℕ)
    (pause : Bool) (cancel : ℕ → Bool) (n : ℕ) (s : MapRouteState)
    (h : ∀ m, n ≤ m → cancel m = true) :
    (simulateNavigationFrom dist pause cancel n s).2 = 0 ∧
    (simulateNavigationFrom dist pause cancel n s).1.currentCoordinateIndex =
      s.currentCoordinateIndex := by
  rw [simulateNavigationFrom.eq_def]
  by_cases hg : pause = false ∧
      s.currentCoordinateIndex < s.coordinates.length
  · rw [dif_pos hg]
    simp [h n le_rfl, checkUserLocation_index]
  · rw [dif_neg hg]
    exact ⟨rfl, rfl⟩

/-- Witness for claim C7 at a concrete input. -/
theorem simulateNavigation_cancel_stops_witness :
    (∀ m : ℕ, 0 ≤ m → (fun _ : ℕ => true) m = true) ∧
    ((simulateNavigationFrom demoDistFar false (fun _ => true) 0
        demoState).2 = 0 ∧
     (simulateNavigationFrom demoDistFar false (fun _ => true) 0
        demoState).1.currentCoordinateIndex =
       demoState.currentCoordinateIndex) :=
  ⟨fun _ _ => rfl, simulateNavigation_cancel_stops demoDistFar false
    (fun _ => true) 0 demoState (fun _ _ => rfl)⟩

/-- Claim C8: destinationReached is monotone: every state-updating operation
of the MapRoute view maps a state with the flag set to a state with the flag
still set, whatever coordinates arrive later. -/
theorem destinationReached_monotone (op : MapRouteOp) (s : MapRouteState)
    (h : s.destinationReached = true) :
    (applyOp op s).destinationReached = true := by
  cases op with
  | checkLocation dist coords =>
      exact checkUserLocation_reached_mono dist s coords h
  | animateNav dist coords => exact h
  | directions coordinates steps => exact h
  | focus coords => exact h
  | mapReady => exact h
  | startNav dist currentLocation fakeNavigation pause cancel n =>
      simp only [applyOp, startNavigation]
      by_cases hf : fakeNavigation = true
      · simp only [hf, if_true]
        exact simulateNavigationFrom_reached_mono dist pause cancel n _ h
      · simp only [Bool.not_eq_true] at hf
        simp only [hf, Bool.false_eq_true, if_false]
        exact h
  | advance => exact h
  | simulate dist pause cancel n =>
      exact simulateNavigationFrom_reached_mono dist pause cancel n s h

/-- Witness for claim C8 at a concrete input. -/
theorem destinationReached_monotone_witness :
    ({ demoState with destinationReached := true }
        : MapRouteState).destinationReached = true ∧
    (applyOp MapRouteOp.mapReady
      { demoState with destinationReached := true }).destinationReached =
      true :=
  ⟨rfl, destinationReached_monotone MapRouteOp.mapReady
    { demoState with destinationReached := true } rfl⟩

/-- Claim C9: the loading-error handler emits exactly one console warning
carrying the error and leaves the app state untouched. -/
theorem handleLoadingError_only_warns (error : String) (s : AppState) :
    handleLoadingError error s = (s, [AppAction.consoleWarn error]) := rfl

/-- Claim C10: the finish handler marks loading complete and routes to Main
exactly when the user store reports authenticated, else to Auth. -/
theorem handleFinishLoading_routes (authenticated : Bool) (s : AppState) :
    (handleFinishLoading authenticated s).isLoadingComplete = true ∧
    (handleFinishLoading authenticated s).initialRoute =
      (if authenticated then Route.main else Route.auth) := ⟨rfl, rfl⟩

end CpApp
